import Mathlib

set_option maxHeartbeats 1000000

/-! Shallow embedding of the Deno text-intelligence starter backend
    (src/server.ts).  The source file holds three variants of the server:
    variant 1 — plain server that echoes the x-request-id header,
    variant 2 — CORS server handling structured SDK v4 errors,
    variant 3 — JWT session-gated server on SDK v5 (throws on error).
    Pure request-scoped logic is embedded directly; the remote Deepgram
    call is a parameter (an opaque behaviour), and JWT verification is a
    parameter of the auth gate. -/

/-- Minimal JSON value model for the opaque payloads moved around by the
    handlers. -/
inductive Json where
  | null
  | bool (b : Bool)
  | num (n : Int)
  | str (s : String)
  | arr (elems : List Json)
  | obj (fields : List (String × Json))

/-- JavaScript truthiness of a JSON value. -/
def jsTruthy : Json → Bool
  | .null => false
  | .bool b => b
  | .num n => decide (n ≠ 0)
  | .str s => decide (s ≠ "")
  | .arr _ => true
  | .obj _ => true

/-- Property access `v[k]` on a JSON value: `none` models `undefined`. -/
def jsonGet : Json → String → Option Json
  | .obj fields, k => fields.lookup k
  | _, _ => none

/-- JavaScript `v || dflt` on an optional JSON value (`none` = undefined). -/
def jsOrElse (v : Option Json) (dflt : Json) : Json :=
  match v with
  | some j => if jsTruthy j then j else dflt
  | none => dflt

/-- JavaScript truthiness of an optional string (`none` models
    null/undefined; the empty string is falsy). -/
def jsStrTruthy : Option String → Bool
  | none => false
  | some s => decide (s ≠ "")

/-- JavaScript `v || dflt` on an optional string. -/
def jsStrOr (v : Option String) (dflt : String) : String :=
  match v with
  | some s => if s = "" then dflt else s
  | none => dflt

/-- Whether the character list `pre` is a prefix of `l` (used to embed
    JavaScript `String.prototype.includes`). -/
def charsStartWith : List Char → List Char → Bool
  | [], _ => true
  | _ :: _, [] => false
  | c :: cs, d :: ds => c = d && charsStartWith cs ds

/-- Whether the character list `pat` occurs inside `l`. -/
def charsContain (pat : List Char) : List Char → Bool
  | [] => charsStartWith pat []
  | c :: cs => charsStartWith pat (c :: cs) || charsContain pat cs

/-- Embedding of JavaScript `s.includes(pat)`. -/
def jsIncludes (s pat : String) : Bool :=
  charsContain pat.toList s.toList

/-- Embedding of JavaScript `s.startsWith(pre)`. -/
def strStartsWith (s pre : String) : Bool :=
  charsStartWith pre.toList s.toList

/-- Embedding of JavaScript `s.slice(n)` (drop the first n characters). -/
def strDrop (s : String) (n : Nat) : String :=
  String.mk (s.toList.drop n)

/-- Embedding of JavaScript `s.toLowerCase()` (ASCII case folding, which is
    all the substring heuristics of the server need). -/
def lowerString (s : String) : String :=
  String.mk (s.toList.map Char.toLower)

/-- Parsed JSON request body: `malformed m` models `req.json()` throwing an
    exception with message `m`; `parsed` carries the destructured
    `{ text, url: textUrl }` fields. -/
inductive ParsedBody where
  | malformed (message : String)
  | parsed (text : Option String) (url : Option String)

/-- An inbound analysis request: body plus the query parameters read by the
    handlers and the x-request-id header (used by variant 1 only). -/
structure AnalysisHttpRequest where
  body : ParsedBody
  summarize : Option String
  topics : Option String
  sentiment : Option String
  intents : Option String
  language : Option String
  requestId : Option String

/-- A value stored under the `summarize` option key: the boolean `true` or
    a string (variant 2/3 only ever store `"v2"`; variant 1 passes the raw
    parameter through). -/
inductive SummarizeValue where
  | boolTrue
  | str (s : String)
deriving DecidableEq

/-- The options mapping handed to the remote call; a `none` field means the
    key is absent from the mapping. -/
structure AnalysisOptions where
  language : Option String
  summarize : Option SummarizeValue
  topics : Option Bool
  sentiment : Option Bool
  intents : Option Bool
deriving DecidableEq

/-- `validateAnalysisInput` from src/server.ts (identical in all three
    variants): returns the error message, or `none` when validation
    passes.  `!text`/`!url` are JavaScript truthiness tests. -/
def validateAnalysisInput (text url : Option String) : Option String :=
  if !jsStrTruthy text && !jsStrTruthy url then
    some "Request must contain either \x27text\x27 or \x27url\x27 field"
  else if jsStrTruthy text && jsStrTruthy url then
    some "Request must contain only one of \x27text\x27 or \x27url\x27, not both"
  else
    none

/-- Variant 1 option translator (src/server.ts lines 172-187): every
    parameter is gated only on truthiness; `topics`/`sentiment`/`intents`
    store the comparison `param === "true"` (so they can be `false`), and
    `language` has no default. -/
def translateOptionsV1 (req : AnalysisHttpRequest) : AnalysisOptions :=
  { summarize :=
      if jsStrTruthy req.summarize then some (.str (req.summarize.getD "")) else none
    topics :=
      if jsStrTruthy req.topics then some (decide (req.topics = some "true")) else none
    sentiment :=
      if jsStrTruthy req.sentiment then some (decide (req.sentiment = some "true")) else none
    intents :=
      if jsStrTruthy req.intents then some (decide (req.intents = some "true")) else none
    language :=
      if jsStrTruthy req.language then req.language else none }

/-- The options record built by variants 2/3 around a given `summarize`
    value: `language` defaults to "en" via `|| "en"`, and the three feature
    flags are enable-only (`=== "true"`). -/
def optionsWithSummarize (req : AnalysisHttpRequest) (sv : Option SummarizeValue) :
    AnalysisOptions :=
  { language := some (jsStrOr req.language "en")
    summarize := sv
    topics := if req.topics = some "true" then some true else none
    sentiment := if req.sentiment = some "true" then some true else none
    intents := if req.intents = some "true" then some true else none }

/-- Variant 2/3 option translator (src/server.ts lines 539-570 and
    966-997, identical code): `summarize` equal to `"true"` stores boolean
    true, `"v2"` stores the string `"v2"`, `"v1"` hard-rejects the request
    (`none` result), and any other value leaves the key absent. -/
def translateOptionsV2 (req : AnalysisHttpRequest) : Option AnalysisOptions :=
  if req.summarize = some "true" then some (optionsWithSummarize req (some .boolTrue))
  else if req.summarize = some "v2" then some (optionsWithSummarize req (some (.str "v2")))
  else if req.summarize = some "v1" then none
  else some (optionsWithSummarize req none)

/-- The `error` envelope body used by analysis failures:
    `{ error: { type, code, message, details } }`. -/
structure ErrorBody where
  type : String
  code : String
  message : String
  details : Json

/-- The auth-failure envelope of variant 3:
    `{ error: { type, code, message } }` (no `details` key). -/
structure AuthErrorBody where
  type : String
  code : String
  message : String

/-- The JSON bodies produced by the modelled routes.  `success results`
    stands for `{ results: ... }` with no other top-level key; a `none`
    payload models `JSON.stringify` dropping an `undefined` value. -/
inductive ResponseBody where
  | success (results : Option Json)
  | failure (e : ErrorBody)
  | authFailure (e : AuthErrorBody)

/-- An HTTP response: status, JSON body, and the echoed x-request-id
    header (the only response header a claim is about; `none` = header
    absent). -/
structure HttpResponse where
  status : Nat
  body : ResponseBody
  xRequestId : Option String

/-- `formatErrorResponse` from src/server.ts (identical in all variants):
    defaults are `statusCode = 500`, `code`/`type` absent; `||` fallbacks
    follow JavaScript truthiness. -/
def formatErrorResponse (message : String) (statusCode : Nat)
    (code : Option String) (errType : Option String) : HttpResponse :=
  { status := statusCode
    body := .failure
      { type := jsStrOr errType (if statusCode = 400 then "validation_error" else "processing_error")
        code := jsStrOr code (if statusCode = 400 then "INVALID_TEXT" else "ANALYSIS_FAILED")
        message := if message = "" then "An error occurred during analysis" else message
        details := .obj [] }
    xRequestId := none }

/-- The 400 validation-error response built inline by every variant of
    `handleAnalysis` (rid is the echoed x-request-id of variant 1;
    variants 2/3 pass `none`). -/
def validationErrorResponse (message : String) (rid : Option String) : HttpResponse :=
  { status := 400
    body := .failure
      { type := "validation_error"
        code := "INVALID_TEXT"
        message := message
        details := .obj [] }
    xRequestId := rid }

/-- The deprecation message of the `summarize=v1` hard rejection. -/
def v1DeprecationMessage : String :=
  "Summarization v1 is no longer supported. Please use v2 or true."

/-- The payload handed to the remote analysis call: `{ text }` or
    `{ url }`. -/
inductive RemotePayload where
  | textPayload (text : String)
  | urlPayload (url : String)
deriving DecidableEq

/-- Which payload the dispatch `text ? analyzeText : analyzeUrl` builds
    (JavaScript truthiness on the destructured body fields). -/
def requestPayload (text textUrl : Option String) : RemotePayload :=
  if jsStrTruthy text then .textPayload (text.getD "")
  else .urlPayload (textUrl.getD "")

/-- Outcome of one SDK v4 remote call (variants 1 and 2): it may throw, or
    return `{ result, error }` with exactly one of the two non-null.
    `failure m` is a structured error whose `.message` is `m` (the empty
    string models an absent message); `ok result` carries the non-null
    result object. -/
inductive SdkV4Outcome where
  | throws (message : String)
  | failure (message : String)
  | ok (result : Json)

/-- Outcome of one SDK v5 remote call (variant 3): it throws on error,
    otherwise returns the result object. -/
inductive SdkV5Outcome where
  | throws (message : String)
  | ok (result : Json)

/-- What a run of `handleAnalysis` produces: the HTTP response, plus the
    list of remote invocations (payload and options) it performed, in
    order. -/
structure HandlerOutput where
  response : HttpResponse
  remoteCalls : List (RemotePayload × AnalysisOptions)

/-- Variant 1 echo of the x-request-id request header into the response
    headers: only a truthy header value is copied. -/
def echoRequestId (rid : Option String) : Option String :=
  if jsStrTruthy rid then rid else none

/-- The URL heuristic of variant 2 (src/server.ts lines 580-588):
    `textUrl && (msg.includes(...) || ...)` over the lowercased message. -/
def isUrlError (textUrl : Option String) (m : String) : Bool :=
  jsStrTruthy textUrl &&
    (jsIncludes (lowerString m) "url" ||
     jsIncludes (lowerString m) "unreachable" ||
     jsIncludes (lowerString m) "invalid" ||
     jsIncludes (lowerString m) "malformed")

/-- The 400 processing-error response of variant 2 for a structured remote
    error with message `m` (src/server.ts lines 590-600). -/
def remoteErrorResponseV2 (textUrl : Option String) (m : String) : HttpResponse :=
  { status := 400
    body := .failure
      { type := "processing_error"
        code := if isUrlError textUrl m then "INVALID_URL" else "INVALID_TEXT"
        message := if m = "" then "Failed to process text" else m
        details := .obj [] }
    xRequestId := none }

/-- The 200 success response of variants 2/3:
    `{ results: result.results || {} }`. -/
def successResponseV23 (result : Json) : HttpResponse :=
  { status := 200
    body := .success (some (jsOrElse (jsonGet result "results") (.obj [])))
    xRequestId := none }

/-- The try-block of variant 1 `handleAnalysis` (src/server.ts lines
    140-201).  `Except.error m` means an exception with message `m`
    escaped the try-block (malformed body, or the remote call throwing);
    the list records the remote invocations.  Variant 1 never inspects the
    structured `error` of the SDK v4 response: on `failure` the serialised
    body is `{ results: null }` with status 200. -/
def analysisTryBodyV1 (req : AnalysisHttpRequest)
    (remote : RemotePayload → AnalysisOptions → SdkV4Outcome) :
    Except String HttpResponse × List (RemotePayload × AnalysisOptions) :=
  match req.body with
  | .malformed m => (.error m, [])
  | .parsed text textUrl =>
    match validateAnalysisInput text textUrl with
    | some validationError =>
      (.ok (validationErrorResponse validationError (echoRequestId req.requestId)), [])
    | none =>
      match remote (requestPayload text textUrl) (translateOptionsV1 req) with
      | .throws m => (.error m, [(requestPayload text textUrl, translateOptionsV1 req)])
      | .failure _ =>
        (.ok { status := 200, body := .success (some .null),
               xRequestId := echoRequestId req.requestId },
         [(requestPayload text textUrl, translateOptionsV1 req)])
      | .ok result =>
        (.ok { status := 200, body := .success (some result),
               xRequestId := echoRequestId req.requestId },
         [(requestPayload text textUrl, translateOptionsV1 req)])

/-- Variant 1 `handleAnalysis`: the try-block wrapped by the catch that
    calls `formatErrorResponse(err)` (default status 500, no echoed
    header). -/
def handleAnalysisV1 (req : AnalysisHttpRequest)
    (remote : RemotePayload → AnalysisOptions → SdkV4Outcome) : HandlerOutput :=
  match analysisTryBodyV1 req remote with
  | (.ok resp, calls) => { response := resp, remoteCalls := calls }
  | (.error m, calls) => { response := formatErrorResponse m 500 none none, remoteCalls := calls }

/-- The try-block of variant 2 `handleAnalysis` (src/server.ts lines
    511-607): validation, option translation with the v1 hard rejection,
    a single SDK v4 call, structured-error mapping, and the success
    response `{ results: result.results || {} }`. -/
def analysisTryBodyV2 (req : AnalysisHttpRequest)
    (remote : RemotePayload → AnalysisOptions → SdkV4Outcome) :
    Except String HttpResponse × List (RemotePayload × AnalysisOptions) :=
  match req.body with
  | .malformed m => (.error m, [])
  | .parsed text textUrl =>
    match validateAnalysisInput text textUrl with
    | some validationError => (.ok (validationErrorResponse validationError none), [])
    | none =>
      match translateOptionsV2 req with
      | none => (.ok (validationErrorResponse v1DeprecationMessage none), [])
      | some options =>
        match remote (requestPayload text textUrl) options with
        | .throws m => (.error m, [(requestPayload text textUrl, options)])
        | .failure m =>
          (.ok (remoteErrorResponseV2 textUrl m), [(requestPayload text textUrl, options)])
        | .ok result =>
          (.ok (successResponseV23 result), [(requestPayload text textUrl, options)])

/-- Variant 2 `handleAnalysis`: try-block plus the catch-all. -/
def handleAnalysisV2 (req : AnalysisHttpRequest)
    (remote : RemotePayload → AnalysisOptions → SdkV4Outcome) : HandlerOutput :=
  match analysisTryBodyV2 req remote with
  | (.ok resp, calls) => { response := resp, remoteCalls := calls }
  | (.error m, calls) => { response := formatErrorResponse m 500 none none, remoteCalls := calls }

/-- The try-block of variant 3 `handleAnalysis` (src/server.ts lines
    938-1013): identical to variant 2 up to the remote call, but the SDK
    v5 call throws on error instead of returning a structured one. -/
def analysisTryBodyV3 (req : AnalysisHttpRequest)
    (remote : RemotePayload → AnalysisOptions → SdkV5Outcome) :
    Except String HttpResponse × List (RemotePayload × AnalysisOptions) :=
  match req.body with
  | .malformed m => (.error m, [])
  | .parsed text textUrl =>
    match validateAnalysisInput text textUrl with
    | some validationError => (.ok (validationErrorResponse validationError none), [])
    | none =>
      match translateOptionsV2 req with
      | none => (.ok (validationErrorResponse v1DeprecationMessage none), [])
      | some options =>
        match remote (requestPayload text textUrl) options with
        | .throws m => (.error m, [(requestPayload text textUrl, options)])
        | .ok result =>
          (.ok (successResponseV23 result), [(requestPayload text textUrl, options)])

/-- Variant 3 `handleAnalysis`: try-block plus the catch-all. -/
def handleAnalysisV3 (req : AnalysisHttpRequest)
    (remote : RemotePayload → AnalysisOptions → SdkV5Outcome) : HandlerOutput :=
  match analysisTryBodyV3 req remote with
  | (.ok resp, calls) => { response := resp, remoteCalls := calls }
  | (.error m, calls) => { response := formatErrorResponse m 500 none none, remoteCalls := calls }

/-- `checkAuth` of variant 3 (src/server.ts lines 912-928).  The JWT
    signature/expiry check (`jose.jwtVerify`, out of scope) is the
    parameter `verify`; `authHeader` is `req.headers.get("Authorization")`
    and the code reads `authHeader || ""`.  Returns the 401 response, or
    `none` when the request may proceed. -/
def checkAuth (verify : String → Bool) (authHeader : Option String) : Option HttpResponse :=
  if !(strStartsWith (authHeader.getD "") "Bearer ") then
    some { status := 401
           body := .authFailure
             { type := "AuthenticationError"
               code := "MISSING_TOKEN"
               message := "Authorization header with Bearer token is required" }
           xRequestId := none }
  else if !(verify (strDrop (authHeader.getD "") 7)) then
    some { status := 401
           body := .authFailure
             { type := "AuthenticationError"
               code := "INVALID_TOKEN"
               message := "Invalid or expired session token" }
           xRequestId := none }
  else none

/-- The protected analysis route of variant 3 (src/server.ts lines
    1083-1087): run `checkAuth`, return its response if any, otherwise run
    `handleAnalysis`. -/
def protectedAnalysisV3 (verify : String → Bool) (authHeader : Option String)
    (req : AnalysisHttpRequest)
    (remote : RemotePayload → AnalysisOptions → SdkV5Outcome) : HandlerOutput :=
  match checkAuth verify authHeader with
  | some resp => { response := resp, remoteCalls := [] }
  | none => handleAnalysisV3 req remote

/-- A remote behaviour that always succeeds with an empty result object
    (SDK v4). -/
def remoteOkEmptyV4 : RemotePayload → AnalysisOptions → SdkV4Outcome :=
  fun _ _ => .ok (.obj [])

/-- A remote behaviour that always succeeds with an empty result object
    (SDK v5). -/
def remoteOkEmptyV5 : RemotePayload → AnalysisOptions → SdkV5Outcome :=
  fun _ _ => .ok (.obj [])

/-- A remote behaviour (SDK v4) that succeeds with a result object whose
    `results` field is a one-entry mapping. -/
def remoteOkPayloadV4 : RemotePayload → AnalysisOptions → SdkV4Outcome :=
  fun _ _ => .ok (.obj [("results", .obj [("summary", .str "ok")])])

/-- A remote behaviour (SDK v4) that always returns a structured error
    mentioning the URL. -/
def remoteFailUrlV4 : RemotePayload → AnalysisOptions → SdkV4Outcome :=
  fun _ _ => .failure "Invalid URL provided"

/-- A remote behaviour (SDK v5) that always throws. -/
def remoteThrowV5 : RemotePayload → AnalysisOptions → SdkV5Outcome :=
  fun _ _ => .throws "network failure"

/-- A token verifier accepting every token. -/
def verifyAlways : String → Bool := fun _ => true

/-- A token verifier rejecting every token. -/
def verifyNever : String → Bool := fun _ => false

/-- A plain request: body `{ text: "hello" }`, no query parameters, no
    x-request-id header. -/
def textHelloRequest : AnalysisHttpRequest :=
  { body := .parsed (some "hello") none
    summarize := none
    topics := none
    sentiment := none
    intents := none
    language := none
    requestId := none }

/-- A request in URL mode: body `{ url: "http://example.com" }`, no query
    parameters. -/
def urlModeRequest : AnalysisHttpRequest :=
  { textHelloRequest with body := .parsed none (some "http://example.com") }

/-- A text request with `summarize=v1` in the query. -/
def summV1Request : AnalysisHttpRequest :=
  { textHelloRequest with summarize := some "v1" }

/-- A request with both `text` and `url` in the body and `summarize=v1`. -/
def summV1BothRequest : AnalysisHttpRequest :=
  { textHelloRequest with body := .parsed (some "a") (some "b"), summarize := some "v1" }

/-- A text request with `topics=false` in the query. -/
def topicsFalseRequest : AnalysisHttpRequest :=
  { textHelloRequest with topics := some "false" }

/-- A text request with `topics=true` in the query. -/
def topicsTrueRequest : AnalysisHttpRequest :=
  { textHelloRequest with topics := some "true" }

/-! ## Helper lemmas -/

/-- At most one remote invocation per request, variant 1. -/
theorem remoteCallsLenV1 (req : AnalysisHttpRequest)
    (remote : RemotePayload → AnalysisOptions → SdkV4Outcome) :
    (handleAnalysisV1 req remote).remoteCalls.length ≤ 1 := by
  unfold handleAnalysisV1 analysisTryBodyV1
  cases hb : req.body with
  | malformed m => simp [hb]
  | parsed text textUrl =>
    cases hv : validateAnalysisInput text textUrl with
    | some ve => simp [hb, hv]
    | none =>
      cases hr : remote (requestPayload text textUrl) (translateOptionsV1 req) <;>
        simp [hb, hv, hr]

/-- At most one remote invocation per request, variant 2. -/
theorem remoteCallsLenV2 (req : AnalysisHttpRequest)
    (remote : RemotePayload → AnalysisOptions → SdkV4Outcome) :
    (handleAnalysisV2 req remote).remoteCalls.length ≤ 1 := by
  unfold handleAnalysisV2 analysisTryBodyV2
  cases hb : req.body with
  | malformed m => simp [hb]
  | parsed text textUrl =>
    cases hv : validateAnalysisInput text textUrl with
    | some ve => simp [hb, hv]
    | none =>
      cases ht : translateOptionsV2 req with
      | none => simp [hb, hv, ht]
      | some opts =>
        cases hr : remote (requestPayload text textUrl) opts <;> simp [hb, hv, ht, hr]

/-- At most one remote invocation per request, variant 3. -/
theorem remoteCallsLenV3 (req : AnalysisHttpRequest)
    (remote : RemotePayload → AnalysisOptions → SdkV5Outcome) :
    (handleAnalysisV3 req remote).remoteCalls.length ≤ 1 := by
  unfold handleAnalysisV3 analysisTryBodyV3
  cases hb : req.body with
  | malformed m => simp [hb]
  | parsed text textUrl =>
    cases hv : validateAnalysisInput text textUrl with
    | some ve => simp [hb, hv]
    | none =>
      cases ht : translateOptionsV2 req with
      | none => simp [hb, hv, ht]
      | some opts =>
        cases hr : remote (requestPayload text textUrl) opts <;> simp [hb, hv, ht, hr]

/-- Any options record handed to the remote call by variant 1 is the
    variant-1 translation of the request. -/
theorem callsInvV1 (req : AnalysisHttpRequest)
    (remote : RemotePayload → AnalysisOptions → SdkV4Outcome)
    (p : RemotePayload) (o : AnalysisOptions)
    (h : (handleAnalysisV1 req remote).remoteCalls = [(p, o)]) :
    o = translateOptionsV1 req := by
  unfold handleAnalysisV1 analysisTryBodyV1 at h
  cases hb : req.body with
  | malformed m => simp only [hb] at h; simp at h
  | parsed text textUrl =>
    simp only [hb] at h
    cases hv : validateAnalysisInput text textUrl with
    | some ve => simp only [hv] at h; simp at h
    | none =>
      simp only [hv] at h
      cases hr : remote (requestPayload text textUrl) (translateOptionsV1 req) with
      | throws m2 => simp only [hr] at h; simp at h; rw [h.2]
      | failure m2 => simp only [hr] at h; simp at h; rw [h.2]
      | ok result => simp only [hr] at h; simp at h; rw [h.2]

/-- Any options record handed to the remote call by variant 2 is a
    successful variant-2/3 translation of the request. -/
theorem callsInvV2 (req : AnalysisHttpRequest)
    (remote : RemotePayload → AnalysisOptions → SdkV4Outcome)
    (p : RemotePayload) (o : AnalysisOptions)
    (h : (handleAnalysisV2 req remote).remoteCalls = [(p, o)]) :
    translateOptionsV2 req = some o := by
  unfold handleAnalysisV2 analysisTryBodyV2 at h
  cases hb : req.body with
  | malformed m => simp only [hb] at h; simp at h
  | parsed text textUrl =>
    simp only [hb] at h
    cases hv : validateAnalysisInput text textUrl with
    | some ve => simp only [hv] at h; simp at h
    | none =>
      simp only [hv] at h
      cases ht : translateOptionsV2 req with
      | none => simp only [ht] at h; simp at h
      | some opts =>
        simp only [ht] at h
        cases hr : remote (requestPayload text textUrl) opts with
        | throws m2 => simp only [hr] at h; simp at h; rw [h.2]
        | failure m2 => simp only [hr] at h; simp at h; rw [h.2]
        | ok result => simp only [hr] at h; simp at h; rw [h.2]

/-- Any options record handed to the remote call by variant 3 is a
    successful variant-2/3 translation of the request. -/
theorem callsInvV3 (req : AnalysisHttpRequest)
    (remote : RemotePayload → AnalysisOptions → SdkV5Outcome)
    (p : RemotePayload) (o : AnalysisOptions)
    (h : (handleAnalysisV3 req remote).remoteCalls = [(p, o)]) :
    translateOptionsV2 req = some o := by
  unfold handleAnalysisV3 analysisTryBodyV3 at h
  cases hb : req.body with
  | malformed m => simp only [hb] at h; simp at h
  | parsed text textUrl =>
    simp only [hb] at h
    cases hv : validateAnalysisInput text textUrl with
    | some ve => simp only [hv] at h; simp at h
    | none =>
      simp only [hv] at h
      cases ht : translateOptionsV2 req with
      | none => simp only [ht] at h; simp at h
      | some opts =>
        simp only [ht] at h
        cases hr : remote (requestPayload text textUrl) opts with
        | throws m2 => simp only [hr] at h; simp at h; rw [h.2]
        | ok result => simp only [hr] at h; simp at h; rw [h.2]

/-- Every successful variant-2/3 translation is an `optionsWithSummarize`
    record, so its non-summarize fields are determined by the request. -/
theorem translateOptionsV2Fields (req : AnalysisHttpRequest) (o : AnalysisOptions)
    (h : translateOptionsV2 req = some o) :
    o.language = some (jsStrOr req.language "en")
    ∧ o.topics = (if req.topics = some "true" then some true else none)
    ∧ o.sentiment = (if req.sentiment = some "true" then some true else none)
    ∧ o.intents = (if req.intents = some "true" then some true else none) := by
  unfold translateOptionsV2 at h
  split at h
  · injection h with h; subst h; simp [optionsWithSummarize]
  · split at h
    · injection h with h; subst h; simp [optionsWithSummarize]
    · split at h
      · cases h
      · injection h with h; subst h; simp [optionsWithSummarize]

/-! ## Claim theorems -/

/-- C4: the input validator fails exactly when `text` and `url` are both
    absent (with the "must contain either" message) or both present (with
    the "only one of" message); on failure every variant of the handler
    returns 400 with type validation_error and code INVALID_TEXT carrying
    the validator message and never invokes the remote call; with exactly
    one field present, validation passes.  Fields are absent or non-empty
    (the empty-string degenerate case is the subject of C9). -/
theorem claimC4 :
    (∀ text url : Option String,
      (∀ s, text = some s → s ≠ "") →
      (∀ s, url = some s → s ≠ "") →
        ((text = none ∧ url = none →
            validateAnalysisInput text url =
              some "Request must contain either \x27text\x27 or \x27url\x27 field")
         ∧ (text ≠ none ∧ url ≠ none →
            validateAnalysisInput text url =
              some "Request must contain only one of \x27text\x27 or \x27url\x27, not both")
         ∧ (validateAnalysisInput text url = none ↔
              ((text = none ∧ url ≠ none) ∨ (text ≠ none ∧ url = none)))))
    ∧ (∀ (req : AnalysisHttpRequest) (remote : RemotePayload → AnalysisOptions → SdkV4Outcome)
         (text textUrl : Option String) (m : String),
           req.body = .parsed text textUrl →
           validateAnalysisInput text textUrl = some m →
           handleAnalysisV1 req remote =
             ⟨validationErrorResponse m (echoRequestId req.requestId), []⟩)
    ∧ (∀ (req : AnalysisHttpRequest) (remote : RemotePayload → AnalysisOptions → SdkV4Outcome)
         (text textUrl : Option String) (m : String),
           req.body = .parsed text textUrl →
           validateAnalysisInput text textUrl = some m →
           handleAnalysisV2 req remote = ⟨validationErrorResponse m none, []⟩)
    ∧ (∀ (req : AnalysisHttpRequest) (remote : RemotePayload → AnalysisOptions → SdkV5Outcome)
         (text textUrl : Option String) (m : String),
           req.body = .parsed text textUrl →
           validateAnalysisInput text textUrl = some m →
           handleAnalysisV3 req remote = ⟨validationErrorResponse m none, []⟩) := by
  refine ⟨?_, ?_, ?_, ?_⟩
  · intro text url htext hurl
    refine ⟨?_, ?_, ?_⟩
    · rintro ⟨rfl, rfl⟩; rfl
    · rintro ⟨ht, hu⟩
      rcases text with _ | s
      · exact absurd rfl ht
      rcases url with _ | t
      · exact absurd rfl hu
      have hs := htext s rfl
      have htt := hurl t rfl
      simp [validateAnalysisInput, jsStrTruthy, hs, htt]
    · rcases text with _ | s <;> rcases url with _ | t
      · simp [validateAnalysisInput, jsStrTruthy]
      · have h2 := hurl t rfl
        simp [validateAnalysisInput, jsStrTruthy, h2]
      · have h1 := htext s rfl
        simp [validateAnalysisInput, jsStrTruthy, h1]
      · have h1 := htext s rfl
        have h2 := hurl t rfl
        simp [validateAnalysisInput, jsStrTruthy, h1, h2]
  · intro req remote text textUrl m hb hv
    simp [handleAnalysisV1, analysisTryBodyV1, hb, hv]
  · intro req remote text textUrl m hb hv
    simp [handleAnalysisV2, analysisTryBodyV2, hb, hv]
  · intro req remote text textUrl m hb hv
    simp [handleAnalysisV3, analysisTryBodyV3, hb, hv]

/-- Witness for C4: a request with both `text` and `url` is rejected with
    the "only one of" message and no remote invocation. -/
theorem claimC4Witness :
    handleAnalysisV2 { textHelloRequest with body := .parsed (some "a") (some "b") }
        remoteOkEmptyV4 =
      ⟨validationErrorResponse
        "Request must contain only one of \x27text\x27 or \x27url\x27, not both" none, []⟩ :=
  claimC4.2.2.1 _ remoteOkEmptyV4 (some "a") (some "b") _ rfl rfl

/-- C7: whenever an exception escapes the try-block of any variant of the
    analysis pipeline, the handler returns 500 with type processing_error,
    code ANALYSIS_FAILED, the exception message (or the generic fallback
    when that message is empty), and an empty details mapping. -/
theorem claimC7 :
    (∀ (req : AnalysisHttpRequest) (remote : RemotePayload → AnalysisOptions → SdkV4Outcome)
       (m : String) (calls : List (RemotePayload × AnalysisOptions)),
        analysisTryBodyV1 req remote = (.error m, calls) →
        (handleAnalysisV1 req remote).response =
          ⟨500, .failure ⟨"processing_error", "ANALYSIS_FAILED",
             if m = "" then "An error occurred during analysis" else m, .obj []⟩, none⟩)
    ∧ (∀ (req : AnalysisHttpRequest) (remote : RemotePayload → AnalysisOptions → SdkV4Outcome)
         (m : String) (calls : List (RemotePayload × AnalysisOptions)),
          analysisTryBodyV2 req remote = (.error m, calls) →
          (handleAnalysisV2 req remote).response =
            ⟨500, .failure ⟨"processing_error", "ANALYSIS_FAILED",
               if m = "" then "An error occurred during analysis" else m, .obj []⟩, none⟩)
    ∧ (∀ (req : AnalysisHttpRequest) (remote : RemotePayload → AnalysisOptions → SdkV5Outcome)
         (m : String) (calls : List (RemotePayload × AnalysisOptions)),
          analysisTryBodyV3 req remote = (.error m, calls) →
          (handleAnalysisV3 req remote).response =
            ⟨500, .failure ⟨"processing_error", "ANALYSIS_FAILED",
               if m = "" then "An error occurred during analysis" else m, .obj []⟩, none⟩) := by
  refine ⟨?_, ?_, ?_⟩
  · intro req remote m calls h
    simp [handleAnalysisV1, h, formatErrorResponse, jsStrOr]
  · intro req remote m calls h
    simp [handleAnalysisV2, h, formatErrorResponse, jsStrOr]
  · intro req remote m calls h
    simp [handleAnalysisV3, h, formatErrorResponse, jsStrOr]

/-- Witness for C7: a malformed request body (a throwing `req.json()`)
    produces the 500 ANALYSIS_FAILED envelope with the exception message
    and empty details. -/
theorem claimC7Witness :
    (handleAnalysisV2 { textHelloRequest with body := .malformed "unexpected end of JSON input" }
        remoteOkEmptyV4).response =
      ⟨500, .failure ⟨"processing_error", "ANALYSIS_FAILED",
         "unexpected end of JSON input", .obj []⟩, none⟩ :=
  (claimC7.2.1 { textHelloRequest with body := .malformed "unexpected end of JSON input" }
    remoteOkEmptyV4 "unexpected end of JSON input" [] rfl).trans rfl

/-- C5: when the remote call succeeds, every variant returns 200 with body
    `{ results: R }` and no other top-level key.  In variants 2/3, R is the
    `results` field of the result object passed through unmodified (an
    opaque mapping per the data model), or the empty mapping when that
    field is absent; in variant 1 the result object itself is passed
    through unmodified (and, per the SDK v4 contract, is always present on
    success). -/
theorem claimC5 :
    (∀ (req : AnalysisHttpRequest) (remote : RemotePayload → AnalysisOptions → SdkV4Outcome)
       (text textUrl : Option String) (opts : AnalysisOptions) (result : Json),
        req.body = .parsed text textUrl →
        validateAnalysisInput text textUrl = none →
        translateOptionsV2 req = some opts →
        remote (requestPayload text textUrl) opts = .ok result →
          (handleAnalysisV2 req remote).response =
            ⟨200, .success (some (jsOrElse (jsonGet result "results") (.obj []))), none⟩
          ∧ (∀ kvs, jsonGet result "results" = some (.obj kvs) →
              (handleAnalysisV2 req remote).response.body = .success (some (.obj kvs)))
          ∧ (jsonGet result "results" = none →
              (handleAnalysisV2 req remote).response.body = .success (some (.obj []))))
    ∧ (∀ (req : AnalysisHttpRequest) (remote : RemotePayload → AnalysisOptions → SdkV5Outcome)
         (text textUrl : Option String) (opts : AnalysisOptions) (result : Json),
          req.body = .parsed text textUrl →
          validateAnalysisInput text textUrl = none →
          translateOptionsV2 req = some opts →
          remote (requestPayload text textUrl) opts = .ok result →
            (handleAnalysisV3 req remote).response =
              ⟨200, .success (some (jsOrElse (jsonGet result "results") (.obj []))), none⟩
            ∧ (∀ kvs, jsonGet result "results" = some (.obj kvs) →
                (handleAnalysisV3 req remote).response.body = .success (some (.obj kvs)))
            ∧ (jsonGet result "results" = none →
                (handleAnalysisV3 req remote).response.body = .success (some (.obj []))))
    ∧ (∀ (req : AnalysisHttpRequest) (remote : RemotePayload → AnalysisOptions → SdkV4Outcome)
         (text textUrl : Option String) (result : Json),
          req.body = .parsed text textUrl →
          validateAnalysisInput text textUrl = none →
          remote (requestPayload text textUrl) (translateOptionsV1 req) = .ok result →
            (handleAnalysisV1 req remote).response =
              ⟨200, .success (some result), echoRequestId req.requestId⟩) := by
  refine ⟨?_, ?_, ?_⟩
  · intro req remote text textUrl opts result hb hv ht hr
    have hmain : handleAnalysisV2 req remote =
        ⟨successResponseV23 result, [(requestPayload text textUrl, opts)]⟩ := by
      simp [handleAnalysisV2, analysisTryBodyV2, hb, hv, ht, hr]
    refine ⟨by rw [hmain]; rfl, ?_, ?_⟩
    · intro kvs hk
      rw [hmain]
      simp [successResponseV23, hk, jsOrElse, jsTruthy]
    · intro hk
      rw [hmain]
      simp [successResponseV23, hk, jsOrElse]
  · intro req remote text textUrl opts result hb hv ht hr
    have hmain : handleAnalysisV3 req remote =
        ⟨successResponseV23 result, [(requestPayload text textUrl, opts)]⟩ := by
      simp [handleAnalysisV3, analysisTryBodyV3, hb, hv, ht, hr]
    refine ⟨by rw [hmain]; rfl, ?_, ?_⟩
    · intro kvs hk
      rw [hmain]
      simp [successResponseV23, hk, jsOrElse, jsTruthy]
    · intro hk
      rw [hmain]
      simp [successResponseV23, hk, jsOrElse]
  · intro req remote text textUrl result hb hv hr
    simp [handleAnalysisV1, analysisTryBodyV1, hb, hv, hr]

/-- Witness for C5: a success whose result object carries a one-entry
    `results` mapping is passed through unmodified under the `results`
    key. -/
theorem claimC5Witness :
    (handleAnalysisV2 textHelloRequest remoteOkPayloadV4).response =
      ⟨200, .success (some (.obj [("summary", .str "ok")])), none⟩ :=
  ((claimC5.1 textHelloRequest remoteOkPayloadV4 (some "hello") none
      (optionsWithSummarize textHelloRequest none)
      (.obj [("results", .obj [("summary", .str "ok")])])
      rfl rfl rfl rfl).1).trans rfl

/-- C6: a structured remote error in variant 2 yields 400 with type
    processing_error and the remote message (which the remote contract
    says is carried, hence non-empty); the code is INVALID_URL exactly
    when the request used URL mode and the lowercased message contains
    "url", "unreachable", "invalid" or "malformed", and INVALID_TEXT
    otherwise; and no variant ever performs more than one remote
    round-trip per request. -/
theorem claimC6 :
    (∀ (req : AnalysisHttpRequest) (remote : RemotePayload → AnalysisOptions → SdkV4Outcome)
       (text textUrl : Option String) (opts : AnalysisOptions) (m : String),
        req.body = .parsed text textUrl →
        validateAnalysisInput text textUrl = none →
        translateOptionsV2 req = some opts →
        remote (requestPayload text textUrl) opts = .failure m →
        m ≠ "" →
          (handleAnalysisV2 req remote).response =
            ⟨400, .failure ⟨"processing_error",
               if jsStrTruthy textUrl &&
                  (jsIncludes (lowerString m) "url" || jsIncludes (lowerString m) "unreachable" ||
                   jsIncludes (lowerString m) "invalid" || jsIncludes (lowerString m) "malformed")
               then "INVALID_URL" else "INVALID_TEXT",
               m, .obj []⟩, none⟩
          ∧ (handleAnalysisV2 req remote).remoteCalls = [(requestPayload text textUrl, opts)])
    ∧ (∀ (req : AnalysisHttpRequest) (remote : RemotePayload → AnalysisOptions → SdkV4Outcome),
        (handleAnalysisV1 req remote).remoteCalls.length ≤ 1)
    ∧ (∀ (req : AnalysisHttpRequest) (remote : RemotePayload → AnalysisOptions → SdkV4Outcome),
        (handleAnalysisV2 req remote).remoteCalls.length ≤ 1)
    ∧ (∀ (req : AnalysisHttpRequest) (remote : RemotePayload → AnalysisOptions → SdkV5Outcome),
        (handleAnalysisV3 req remote).remoteCalls.length ≤ 1) := by
  refine ⟨?_, remoteCallsLenV1, remoteCallsLenV2, remoteCallsLenV3⟩
  intro req remote text textUrl opts m hb hv ht hr hm
  have hmain : handleAnalysisV2 req remote =
      ⟨remoteErrorResponseV2 textUrl m, [(requestPayload text textUrl, opts)]⟩ := by
    simp [handleAnalysisV2, analysisTryBodyV2, hb, hv, ht, hr]
  refine ⟨?_, by rw [hmain]⟩
  rw [hmain]
  simp [remoteErrorResponseV2, isUrlError, hm]

/-- Witness for C6: a URL-mode request whose remote error message mentions
    the URL is classified INVALID_URL with the message untouched. -/
theorem claimC6Witness :
    (handleAnalysisV2 urlModeRequest remoteFailUrlV4).response =
      ⟨400, .failure ⟨"processing_error", "INVALID_URL", "Invalid URL provided", .obj []⟩,
        none⟩ :=
  ((claimC6.1 urlModeRequest remoteFailUrlV4 none (some "http://example.com")
      (optionsWithSummarize urlModeRequest none) "Invalid URL provided"
      rfl rfl rfl rfl (by decide)).1).trans (by rfl)

/-- C8: on the session-gated variant's protected analysis route, an absent
    Authorization header or one not starting with "Bearer " yields 401
    with type AuthenticationError and code MISSING_TOKEN; a bearer token
    the verifier rejects yields 401 with code INVALID_TOKEN; and only when
    the verifier accepts the token does the analysis handler run.  The
    signature+expiry check itself (`jose.jwtVerify`) is the abstract
    parameter `verify`. -/
theorem claimC8 :
    (∀ (verify : String → Bool) (authHeader : Option String) (req : AnalysisHttpRequest)
       (remote : RemotePayload → AnalysisOptions → SdkV5Outcome),
        strStartsWith (authHeader.getD "") "Bearer " = false →
        protectedAnalysisV3 verify authHeader req remote =
          ⟨⟨401, .authFailure ⟨"AuthenticationError", "MISSING_TOKEN",
             "Authorization header with Bearer token is required"⟩, none⟩, []⟩)
    ∧ (∀ (verify : String → Bool) (req : AnalysisHttpRequest)
         (remote : RemotePayload → AnalysisOptions → SdkV5Outcome),
          protectedAnalysisV3 verify none req remote =
            ⟨⟨401, .authFailure ⟨"AuthenticationError", "MISSING_TOKEN",
               "Authorization header with Bearer token is required"⟩, none⟩, []⟩)
    ∧ (∀ (verify : String → Bool) (authHeader : Option String) (req : AnalysisHttpRequest)
         (remote : RemotePayload → AnalysisOptions → SdkV5Outcome),
          strStartsWith (authHeader.getD "") "Bearer " = true →
          verify (strDrop (authHeader.getD "") 7) = false →
          protectedAnalysisV3 verify authHeader req remote =
            ⟨⟨401, .authFailure ⟨"AuthenticationError", "INVALID_TOKEN",
               "Invalid or expired session token"⟩, none⟩, []⟩)
    ∧ (∀ (verify : String → Bool) (authHeader : Option String) (req : AnalysisHttpRequest)
         (remote : RemotePayload → AnalysisOptions → SdkV5Outcome),
          strStartsWith (authHeader.getD "") "Bearer " = true →
          verify (strDrop (authHeader.getD "") 7) = true →
          protectedAnalysisV3 verify authHeader req remote = handleAnalysisV3 req remote) := by
  have missing : ∀ (verify : String → Bool) (authHeader : Option String)
      (req : AnalysisHttpRequest) (remote : RemotePayload → AnalysisOptions → SdkV5Outcome),
      strStartsWith (authHeader.getD "") "Bearer " = false →
      protectedAnalysisV3 verify authHeader req remote =
        ⟨⟨401, .authFailure ⟨"AuthenticationError", "MISSING_TOKEN",
           "Authorization header with Bearer token is required"⟩, none⟩, []⟩ := by
    intro verify authHeader req remote h
    simp [protectedAnalysisV3, checkAuth, h]
  refine ⟨missing, ?_, ?_, ?_⟩
  · intro verify req remote
    exact missing verify none req remote (by decide)
  · intro verify authHeader req remote h1 h2
    simp [protectedAnalysisV3, checkAuth, h1, h2]
  · intro verify authHeader req remote h1 h2
    simp [protectedAnalysisV3, checkAuth, h1, h2]

/-- Witness for C8: an absent header gives MISSING_TOKEN, a rejected
    bearer token gives INVALID_TOKEN, and an accepted one runs the
    handler. -/
theorem claimC8Witness :
    protectedAnalysisV3 verifyNever none textHelloRequest remoteOkEmptyV5 =
      ⟨⟨401, .authFailure ⟨"AuthenticationError", "MISSING_TOKEN",
         "Authorization header with Bearer token is required"⟩, none⟩, []⟩
    ∧ protectedAnalysisV3 verifyNever (some "Bearer abc") textHelloRequest remoteOkEmptyV5 =
      ⟨⟨401, .authFailure ⟨"AuthenticationError", "INVALID_TOKEN",
         "Invalid or expired session token"⟩, none⟩, []⟩
    ∧ protectedAnalysisV3 verifyAlways (some "Bearer abc") textHelloRequest remoteOkEmptyV5 =
      handleAnalysisV3 textHelloRequest remoteOkEmptyV5 :=
  ⟨claimC8.2.1 verifyNever textHelloRequest remoteOkEmptyV5,
   claimC8.2.2.1 verifyNever (some "Bearer abc") textHelloRequest remoteOkEmptyV5
     (by decide) rfl,
   claimC8.2.2.2 verifyAlways (some "Bearer abc") textHelloRequest remoteOkEmptyV5
     (by decide) rfl⟩

/-- C9: presence of `text`/`url` is JavaScript truthiness, so an
    empty-string field behaves exactly like an absent one: the validator
    and every variant of the handler give identical results, a request
    with empty `text` and non-empty `url` is dispatched in URL mode, and
    with both empty the "must contain either" validation error is
    returned. -/
theorem claimC9 :
    (∀ u : Option String, validateAnalysisInput (some "") u = validateAnalysisInput none u)
    ∧ (∀ t : Option String, validateAnalysisInput t (some "") = validateAnalysisInput t none)
    ∧ (∀ (su tp se it la rid u : Option String)
         (remote : RemotePayload → AnalysisOptions → SdkV4Outcome),
          handleAnalysisV1 ⟨.parsed (some "") u, su, tp, se, it, la, rid⟩ remote =
            handleAnalysisV1 ⟨.parsed none u, su, tp, se, it, la, rid⟩ remote)
    ∧ (∀ (su tp se it la rid u : Option String)
         (remote : RemotePayload → AnalysisOptions → SdkV4Outcome),
          handleAnalysisV2 ⟨.parsed (some "") u, su, tp, se, it, la, rid⟩ remote =
            handleAnalysisV2 ⟨.parsed none u, su, tp, se, it, la, rid⟩ remote)
    ∧ (∀ (su tp se it la rid u : Option String)
         (remote : RemotePayload → AnalysisOptions → SdkV5Outcome),
          handleAnalysisV3 ⟨.parsed (some "") u, su, tp, se, it, la, rid⟩ remote =
            handleAnalysisV3 ⟨.parsed none u, su, tp, se, it, la, rid⟩ remote)
    ∧ (∀ (su tp se it la rid t : Option String)
         (remote : RemotePayload → AnalysisOptions → SdkV4Outcome),
          handleAnalysisV2 ⟨.parsed t (some ""), su, tp, se, it, la, rid⟩ remote =
            handleAnalysisV2 ⟨.parsed t none, su, tp, se, it, la, rid⟩ remote)
    ∧ (∀ (req : AnalysisHttpRequest) (remote : RemotePayload → AnalysisOptions → SdkV4Outcome)
         (u : String) (opts : AnalysisOptions),
          req.body = .parsed (some "") (some u) → u ≠ "" →
          translateOptionsV2 req = some opts →
          (handleAnalysisV2 req remote).remoteCalls = [(.urlPayload u, opts)])
    ∧ (∀ (req : AnalysisHttpRequest) (remote : RemotePayload → AnalysisOptions → SdkV4Outcome),
          req.body = .parsed (some "") (some "") →
          (handleAnalysisV2 req remote).response =
            validationErrorResponse
              "Request must contain either \x27text\x27 or \x27url\x27 field" none) := by
  have hvt : ∀ u : Option String,
      validateAnalysisInput (some "") u = validateAnalysisInput none u := by
    intro u; cases u <;> rfl
  have hvu : ∀ t : Option String,
      validateAnalysisInput t (some "") = validateAnalysisInput t none := by
    intro t; cases t <;> rfl
  refine ⟨hvt, hvu, ?_, ?_, ?_, ?_, ?_, ?_⟩
  · intro su tp se it la rid u remote
    simp [handleAnalysisV1, analysisTryBodyV1, hvt, requestPayload, jsStrTruthy,
      translateOptionsV1]
  · intro su tp se it la rid u remote
    simp [handleAnalysisV2, analysisTryBodyV2, hvt, requestPayload, jsStrTruthy,
      translateOptionsV2, optionsWithSummarize]
  · intro su tp se it la rid u remote
    simp [handleAnalysisV3, analysisTryBodyV3, hvt, requestPayload, jsStrTruthy,
      translateOptionsV2, optionsWithSummarize]
  · intro su tp se it la rid t remote
    have hre : ∀ m, remoteErrorResponseV2 (some "") m = remoteErrorResponseV2 none m := by
      intro m; simp [remoteErrorResponseV2, isUrlError, jsStrTruthy]
    simp [handleAnalysisV2, analysisTryBodyV2, hvu, requestPayload, jsStrTruthy,
      translateOptionsV2, optionsWithSummarize, hre]
  · intro req remote u opts hb hu ht
    have hv : validateAnalysisInput (some "") (some u) = none := by
      simp [validateAnalysisInput, jsStrTruthy, hu]
    have hp : requestPayload (some "") (some u) = .urlPayload u := by
      simp [requestPayload, jsStrTruthy]
    cases hr : remote (.urlPayload u) opts <;>
      simp [handleAnalysisV2, analysisTryBodyV2, hb, hv, ht, hp, hr]
  · intro req remote hb
    have hv : validateAnalysisInput (some "") (some "") =
        some "Request must contain either \x27text\x27 or \x27url\x27 field" := rfl
    simp [handleAnalysisV2, analysisTryBodyV2, hb, hv]

/-- Witness for C9: a body with empty `text` and a non-empty `url` passes
    validation and is dispatched in URL mode. -/
theorem claimC9Witness :
    (handleAnalysisV2
        { textHelloRequest with body := .parsed (some "") (some "http://example.com") }
        remoteOkEmptyV4).remoteCalls =
      [(.urlPayload "http://example.com",
        optionsWithSummarize
          { textHelloRequest with body := .parsed (some "") (some "http://example.com") }
          none)] :=
  claimC9.2.2.2.2.2.2.1
    { textHelloRequest with body := .parsed (some "") (some "http://example.com") }
    remoteOkEmptyV4 "http://example.com" _ rfl (by decide) rfl

/-- C10: in variant 1, a non-empty x-request-id request header is echoed
    verbatim on the validation-error (400) and success (200) responses, an
    absent header is never echoed, and the header affects neither the
    response body nor the status. -/
theorem claimC10 :
    (∀ (req : AnalysisHttpRequest) (remote : RemotePayload → AnalysisOptions → SdkV4Outcome)
       (text textUrl : Option String) (m rid : String),
        req.requestId = some rid → rid ≠ "" →
        req.body = .parsed text textUrl →
        validateAnalysisInput text textUrl = some m →
        (handleAnalysisV1 req remote).response.xRequestId = some rid)
    ∧ (∀ (req : AnalysisHttpRequest) (remote : RemotePayload → AnalysisOptions → SdkV4Outcome)
         (text textUrl : Option String) (result : Json) (rid : String),
          req.requestId = some rid → rid ≠ "" →
          req.body = .parsed text textUrl →
          validateAnalysisInput text textUrl = none →
          remote (requestPayload text textUrl) (translateOptionsV1 req) = .ok result →
          (handleAnalysisV1 req remote).response = ⟨200, .success (some result), some rid⟩)
    ∧ (∀ (req : AnalysisHttpRequest) (remote : RemotePayload → AnalysisOptions → SdkV4Outcome),
        req.requestId = none →
        (handleAnalysisV1 req remote).response.xRequestId = none)
    ∧ (∀ (req : AnalysisHttpRequest) (remote : RemotePayload → AnalysisOptions → SdkV4Outcome)
         (rid : Option String),
          ((handleAnalysisV1 { req with requestId := rid } remote).response.body =
             (handleAnalysisV1 req remote).response.body)
          ∧ ((handleAnalysisV1 { req with requestId := rid } remote).response.status =
             (handleAnalysisV1 req remote).response.status)) := by
  refine ⟨?_, ?_, ?_, ?_⟩
  · intro req remote text textUrl m rid hrid hne hb hv
    simp [handleAnalysisV1, analysisTryBodyV1, hb, hv, validationErrorResponse,
      echoRequestId, jsStrTruthy, hrid, hne]
  · intro req remote text textUrl result rid hrid hne hb hv hr
    simp [handleAnalysisV1, analysisTryBodyV1, hb, hv, hr, echoRequestId,
      jsStrTruthy, hrid, hne]
  · intro req remote h
    unfold handleAnalysisV1 analysisTryBodyV1
    cases hb : req.body with
    | malformed m => simp [hb, formatErrorResponse]
    | parsed text textUrl =>
      cases hv : validateAnalysisInput text textUrl with
      | some ve => simp [hb, hv, validationErrorResponse, echoRequestId, h, jsStrTruthy]
      | none =>
        cases hr : remote (requestPayload text textUrl) (translateOptionsV1 req) <;>
          simp [hb, hv, hr, echoRequestId, h, jsStrTruthy, formatErrorResponse]
  · intro req remote rid
    have hto : translateOptionsV1 { req with requestId := rid } = translateOptionsV1 req := by
      simp [translateOptionsV1]
    have hbody : ({ req with requestId := rid } : AnalysisHttpRequest).body = req.body := rfl
    unfold handleAnalysisV1 analysisTryBodyV1
    rw [hbody, hto]
    cases hb : req.body with
    | malformed m => simp [hb]
    | parsed text textUrl =>
      cases hv : validateAnalysisInput text textUrl with
      | some ve => simp [hb, hv, validationErrorResponse]
      | none =>
        cases hr : remote (requestPayload text textUrl) (translateOptionsV1 req) <;>
          simp [hb, hv, hr]

/-- Witness for C10: a concrete request id is echoed on the 200 success
    response. -/
theorem claimC10Witness :
    (handleAnalysisV1 { textHelloRequest with requestId := some "abc-123" }
        remoteOkEmptyV4).response =
      ⟨200, .success (some (.obj [])), some "abc-123"⟩ :=
  claimC10.2.1 { textHelloRequest with requestId := some "abc-123" } remoteOkEmptyV4
    (some "hello") none (.obj []) "abc-123" rfl (by decide) rfl rfl rfl

/-- Counterexample to C1 as stated: in variant 1 a valid request with
    `summarize=v1` is not rejected — the handler performs the remote call
    with the raw string "v1" in the options and returns 200; and even in
    variant 2, when the body is invalid the response carries the
    validation message rather than the v1-deprecation message. -/
theorem claimC1Counterexample :
    (handleAnalysisV1 summV1Request remoteOkEmptyV4).response.status = 200
    ∧ (handleAnalysisV1 summV1Request remoteOkEmptyV4).remoteCalls.length = 1
    ∧ (translateOptionsV1 summV1Request).summarize = some (.str "v1")
    ∧ (handleAnalysisV2 summV1BothRequest remoteOkEmptyV4).response =
        validationErrorResponse
          "Request must contain only one of \x27text\x27 or \x27url\x27, not both" none :=
  ⟨rfl, rfl, rfl, rfl⟩

/-- C1 (amended): in variants 2 and 3, a request that passes input
    validation and has `summarize=v1` is short-circuited before any remote
    call with the 400 v1-deprecation validation error, whatever the other
    fields, parameters and remote behaviour; `summarize=true` stores
    boolean true, `summarize=v2` stores the string "v2", and any other
    value leaves the option absent.  Variant 1 performs no v1 rejection:
    it passes any non-empty `summarize` value through as a raw string
    option. -/
theorem claimC1Amended :
    (∀ (req : AnalysisHttpRequest) (remote : RemotePayload → AnalysisOptions → SdkV4Outcome)
       (text textUrl : Option String),
        req.body = .parsed text textUrl →
        validateAnalysisInput text textUrl = none →
        req.summarize = some "v1" →
        handleAnalysisV2 req remote = ⟨validationErrorResponse v1DeprecationMessage none, []⟩)
    ∧ (∀ (req : AnalysisHttpRequest) (remote : RemotePayload → AnalysisOptions → SdkV5Outcome)
         (text textUrl : Option String),
          req.body = .parsed text textUrl →
          validateAnalysisInput text textUrl = none →
          req.summarize = some "v1" →
          handleAnalysisV3 req remote = ⟨validationErrorResponse v1DeprecationMessage none, []⟩)
    ∧ (∀ req : AnalysisHttpRequest, req.summarize = some "true" →
        (translateOptionsV2 req).map AnalysisOptions.summarize = some (some .boolTrue))
    ∧ (∀ req : AnalysisHttpRequest, req.summarize = some "v2" →
        (translateOptionsV2 req).map AnalysisOptions.summarize = some (some (.str "v2")))
    ∧ (∀ req : AnalysisHttpRequest,
        req.summarize ≠ some "true" → req.summarize ≠ some "v2" → req.summarize ≠ some "v1" →
        (translateOptionsV2 req).map AnalysisOptions.summarize = some none)
    ∧ (∀ req : AnalysisHttpRequest, jsStrTruthy req.summarize = true →
        (translateOptionsV1 req).summarize = some (.str (req.summarize.getD ""))) := by
  have hv1 : ∀ req : AnalysisHttpRequest, req.summarize = some "v1" →
      translateOptionsV2 req = none := by
    intro req hs
    unfold translateOptionsV2
    rw [hs, if_neg (by decide), if_neg (by decide), if_pos rfl]
  refine ⟨?_, ?_, ?_, ?_, ?_, ?_⟩
  · intro req remote text textUrl hb hv hs
    simp [handleAnalysisV2, analysisTryBodyV2, hb, hv, hv1 req hs]
  · intro req remote text textUrl hb hv hs
    simp [handleAnalysisV3, analysisTryBodyV3, hb, hv, hv1 req hs]
  · intro req hs
    unfold translateOptionsV2
    rw [hs, if_pos rfl]
    simp [optionsWithSummarize]
  · intro req hs
    unfold translateOptionsV2
    rw [hs, if_neg (by decide), if_pos rfl]
    simp [optionsWithSummarize]
  · intro req h1 h2 h3
    unfold translateOptionsV2
    rw [if_neg h1, if_neg h2, if_neg h3]
    simp [optionsWithSummarize]
  · intro req h
    simp [translateOptionsV1, h]

/-- Witness for the amended C1: a valid text request with `summarize=v1`
    is rejected by variant 2 with the v1-deprecation message and no remote
    call. -/
theorem claimC1AmendedWitness :
    handleAnalysisV2 summV1Request remoteOkEmptyV4 =
      ⟨validationErrorResponse v1DeprecationMessage none, []⟩ :=
  claimC1Amended.1 summV1Request remoteOkEmptyV4 (some "hello") none rfl rfl rfl

/-- Counterexample to C2 as stated: in variant 1 a request with
    `topics=false` passes `topics: false` to the remote call — the key is
    present and set to false, not omitted. -/
theorem claimC2Counterexample :
    ((handleAnalysisV1 topicsFalseRequest remoteOkEmptyV4).remoteCalls.map
        fun c => c.2.topics) = [some false] := rfl

/-- C2 (amended): in variants 2 and 3, each of `topics`, `sentiment`,
    `intents` is present in the options passed to the remote call exactly
    when its parameter literal-equals "true" (and then maps to boolean
    true); any other or absent value omits the key, which is never false.
    In variant 1 each key is instead present whenever its parameter is
    non-empty and is set to the boolean `param === "true"`, so e.g.
    `topics=false` passes `topics: false`. -/
theorem claimC2Amended :
    (∀ (req : AnalysisHttpRequest) (remote : RemotePayload → AnalysisOptions → SdkV4Outcome)
       (p : RemotePayload) (o : AnalysisOptions),
        (handleAnalysisV2 req remote).remoteCalls = [(p, o)] →
          ((o.topics = some true ↔ req.topics = some "true")
           ∧ (req.topics ≠ some "true" → o.topics = none)
           ∧ o.topics ≠ some false
           ∧ (o.sentiment = some true ↔ req.sentiment = some "true")
           ∧ (req.sentiment ≠ some "true" → o.sentiment = none)
           ∧ o.sentiment ≠ some false
           ∧ (o.intents = some true ↔ req.intents = some "true")
           ∧ (req.intents ≠ some "true" → o.intents = none)
           ∧ o.intents ≠ some false))
    ∧ (∀ (req : AnalysisHttpRequest) (remote : RemotePayload → AnalysisOptions → SdkV5Outcome)
         (p : RemotePayload) (o : AnalysisOptions),
          (handleAnalysisV3 req remote).remoteCalls = [(p, o)] →
            ((o.topics = some true ↔ req.topics = some "true")
             ∧ (req.topics ≠ some "true" → o.topics = none)
             ∧ o.topics ≠ some false
             ∧ (o.sentiment = some true ↔ req.sentiment = some "true")
             ∧ (req.sentiment ≠ some "true" → o.sentiment = none)
             ∧ o.sentiment ≠ some false
             ∧ (o.intents = some true ↔ req.intents = some "true")
             ∧ (req.intents ≠ some "true" → o.intents = none)
             ∧ o.intents ≠ some false))
    ∧ (∀ (req : AnalysisHttpRequest) (remote : RemotePayload → AnalysisOptions → SdkV4Outcome)
         (p : RemotePayload) (o : AnalysisOptions),
          (handleAnalysisV1 req remote).remoteCalls = [(p, o)] →
            (o.topics =
              if jsStrTruthy req.topics then some (decide (req.topics = some "true")) else none)
            ∧ (o.sentiment =
              if jsStrTruthy req.sentiment then some (decide (req.sentiment = some "true"))
              else none)
            ∧ (o.intents =
              if jsStrTruthy req.intents then some (decide (req.intents = some "true"))
              else none)) := by
  have haux : ∀ (param : Option String) (v : Option Bool),
      v = (if param = some "true" then some true else none) →
      ((v = some true ↔ param = some "true") ∧ (param ≠ some "true" → v = none)
        ∧ v ≠ some false) := by
    intro param v hv
    by_cases hc : param = some "true" <;> simp [hv, hc]
  refine ⟨?_, ?_, ?_⟩
  · intro req remote p o h
    obtain ⟨hl, htop, hsen, hint⟩ := translateOptionsV2Fields req o (callsInvV2 req remote p o h)
    obtain ⟨t1, t2, t3⟩ := haux req.topics o.topics htop
    obtain ⟨s1, s2, s3⟩ := haux req.sentiment o.sentiment hsen
    obtain ⟨i1, i2, i3⟩ := haux req.intents o.intents hint
    exact ⟨t1, t2, t3, s1, s2, s3, i1, i2, i3⟩
  · intro req remote p o h
    obtain ⟨hl, htop, hsen, hint⟩ := translateOptionsV2Fields req o (callsInvV3 req remote p o h)
    obtain ⟨t1, t2, t3⟩ := haux req.topics o.topics htop
    obtain ⟨s1, s2, s3⟩ := haux req.sentiment o.sentiment hsen
    obtain ⟨i1, i2, i3⟩ := haux req.intents o.intents hint
    exact ⟨t1, t2, t3, s1, s2, s3, i1, i2, i3⟩
  · intro req remote p o h
    rw [callsInvV1 req remote p o h]
    exact ⟨rfl, rfl, rfl⟩

/-- Witness for the amended C2: with `topics=true` the options passed to
    the remote call by variant 2 carry `topics: true`. -/
theorem claimC2AmendedWitness :
    (optionsWithSummarize topicsTrueRequest none).topics = some true :=
  (claimC2Amended.1 topicsTrueRequest remoteOkEmptyV4 (.textPayload "hello")
      (optionsWithSummarize topicsTrueRequest none) rfl).1.mpr rfl

/-- Counterexample to C3 as stated: in variant 1 a request without a
    `language` parameter reaches the remote call with no `language` key in
    the options at all — nothing is defaulted to "en". -/
theorem claimC3Counterexample :
    ((handleAnalysisV1 textHelloRequest remoteOkEmptyV4).remoteCalls.map
        fun c => c.2.language) = [none] := rfl

/-- C3 (amended): in variants 2 and 3, the options passed to the remote
    call always contain `language`, equal to the parameter when that is
    present and non-empty and to "en" otherwise; in variant 1 `language`
    is present only when the parameter is non-empty, with no default.  In
    every variant no other option key is defaulted when its parameter is
    absent. -/
theorem claimC3Amended :
    (∀ (req : AnalysisHttpRequest) (remote : RemotePayload → AnalysisOptions → SdkV4Outcome)
       (p : RemotePayload) (o : AnalysisOptions),
        (handleAnalysisV2 req remote).remoteCalls = [(p, o)] →
          o.language = some (jsStrOr req.language "en")
          ∧ (jsStrTruthy req.language = true → o.language = req.language)
          ∧ (jsStrTruthy req.language = false → o.language = some "en")
          ∧ (req.summarize = none → o.summarize = none)
          ∧ (req.topics = none → o.topics = none)
          ∧ (req.sentiment = none → o.sentiment = none)
          ∧ (req.intents = none → o.intents = none))
    ∧ (∀ (req : AnalysisHttpRequest) (remote : RemotePayload → AnalysisOptions → SdkV5Outcome)
         (p : RemotePayload) (o : AnalysisOptions),
          (handleAnalysisV3 req remote).remoteCalls = [(p, o)] →
            o.language = some (jsStrOr req.language "en")
            ∧ (jsStrTruthy req.language = true → o.language = req.language)
            ∧ (jsStrTruthy req.language = false → o.language = some "en")
            ∧ (req.summarize = none → o.summarize = none)
            ∧ (req.topics = none → o.topics = none)
            ∧ (req.sentiment = none → o.sentiment = none)
            ∧ (req.intents = none → o.intents = none))
    ∧ (∀ (req : AnalysisHttpRequest) (remote : RemotePayload → AnalysisOptions → SdkV4Outcome)
         (p : RemotePayload) (o : AnalysisOptions),
          (handleAnalysisV1 req remote).remoteCalls = [(p, o)] →
            (req.language = none → o.language = none)
            ∧ (jsStrTruthy req.language = true → o.language = req.language)
            ∧ (req.summarize = none → o.summarize = none)
            ∧ (req.topics = none → o.topics = none)
            ∧ (req.sentiment = none → o.sentiment = none)
            ∧ (req.intents = none → o.intents = none)) := by
  have hlangT : ∀ (la : Option String), jsStrTruthy la = true → some (jsStrOr la "en") = la := by
    intro la h
    cases la with
    | none => cases h
    | some s =>
      simp [jsStrTruthy] at h
      simp [jsStrOr, h]
  have hlangF : ∀ (la : Option String), jsStrTruthy la = false →
      some (jsStrOr la "en") = some "en" := by
    intro la h
    cases la with
    | none => rfl
    | some s =>
      simp [jsStrTruthy] at h
      simp [jsStrOr, h]
  have hsum : ∀ (req : AnalysisHttpRequest) (o : AnalysisOptions),
      translateOptionsV2 req = some o → req.summarize = none → o.summarize = none := by
    intro req o ht h0
    unfold translateOptionsV2 at ht
    rw [h0] at ht
    rw [if_neg (by decide), if_neg (by decide), if_neg (by decide)] at ht
    injection ht with ht
    rw [← ht]
    rfl
  refine ⟨?_, ?_, ?_⟩
  · intro req remote p o h
    have ht := callsInvV2 req remote p o h
    obtain ⟨hl, htop, hsen, hint⟩ := translateOptionsV2Fields req o ht
    refine ⟨hl, ?_, ?_, hsum req o ht, ?_, ?_, ?_⟩
    · intro hx; rw [hl]; exact hlangT req.language hx
    · intro hx; rw [hl]; exact hlangF req.language hx
    · intro hx; rw [htop]; simp [hx]
    · intro hx; rw [hsen]; simp [hx]
    · intro hx; rw [hint]; simp [hx]
  · intro req remote p o h
    have ht := callsInvV3 req remote p o h
    obtain ⟨hl, htop, hsen, hint⟩ := translateOptionsV2Fields req o ht
    refine ⟨hl, ?_, ?_, hsum req o ht, ?_, ?_, ?_⟩
    · intro hx; rw [hl]; exact hlangT req.language hx
    · intro hx; rw [hl]; exact hlangF req.language hx
    · intro hx; rw [htop]; simp [hx]
    · intro hx; rw [hsen]; simp [hx]
    · intro hx; rw [hint]; simp [hx]
  · intro req remote p o h
    rw [callsInvV1 req remote p o h]
    refine ⟨?_, ?_, ?_, ?_, ?_, ?_⟩
    · intro hx; simp [translateOptionsV1, hx, jsStrTruthy]
    · intro hx; simp [translateOptionsV1, hx]
    · intro hx; simp [translateOptionsV1, hx, jsStrTruthy]
    · intro hx; simp [translateOptionsV1, hx, jsStrTruthy]
    · intro hx; simp [translateOptionsV1, hx, jsStrTruthy]
    · intro hx; simp [translateOptionsV1, hx, jsStrTruthy]

/-- Witness for the amended C3: with no `language` parameter, variant 2
    passes `language: "en"` to the remote call. -/
theorem claimC3AmendedWitness :
    (optionsWithSummarize textHelloRequest none).language = some "en" :=
  (claimC3Amended.1 textHelloRequest remoteOkEmptyV4 (.textPayload "hello")
      (optionsWithSummarize textHelloRequest none) rfl).2.2.1 rfl
